import Mathlib

/-!
Verification development for the breakpad mirror repository.

Part 1 embeds `src/processor/minidump_dump.cc`: the stream-loading helper
`LoadStreamContents`, the Linux-extension stream printers `DumpStringArray`
and `DumpRawStream`, the driver `PrintMinidumpDump`, and `main`'s exit code.

The `Minidump` reader class itself (src/processor/minidump.cc) is not part
of the sources; its observable behaviour at the call sites of
minidump_dump.cc is abstracted: each typed accessor either yields an object
or fails (a `Bool` per accessor), and each Linux-extension stream is in one
of three states (seek fails; seek succeeds but `ReadBytes` fails; seek and
read succeed yielding the bytes).
-/

/-- Behaviour of one Linux-extension stream as observed through
`SeekToStreamType` / `ReadBytes`:
* `absent`: `SeekToStreamType` returns false;
* `unreadable len`: `SeekToStreamType` succeeds setting `*length = len`,
  but `ReadBytes` then fails;
* `readable bytes`: `SeekToStreamType` succeeds setting
  `*length = bytes.length`, and `ReadBytes` yields `bytes`. -/
inductive StreamState where
  | absent : StreamState
  | unreadable (len : Nat) : StreamState
  | readable (bytes : List Nat) : StreamState
deriving DecidableEq, Repr

/-- Embedding of `LoadStreamContents` (minidump_dump.cc:65-83). Returns the loaded
buffer (the stream bytes with the extra NUL byte the function appends at
index `*length`) when it succeeds, together with the caller's error count.

NOTE on the error count: the C++ parameter is `int *errors`, and on a
`ReadBytes` failure the source executes `++errors;` — which increments the
function's local copy of the POINTER, not the pointed-to counter `*errors`.
The caller's count is therefore unchanged on every path, and the embedding
returns `e` unchanged in the `unreadable` branch. -/
def LoadStreamContents : StreamState → Nat → Option (List Nat) × Nat
  | .absent, e => (none, e)
  | .unreadable len, e =>
      if len = 0 then (none, e)        -- `*length == 0`: treated as absent
      else (none, e)                   -- ReadBytes fails; `++errors` bumps only the pointer
  | .readable bs, e =>
      if bs.length = 0 then (none, e)  -- `*length == 0`: treated as absent
      else (some (bs ++ [0]), e)       -- buffer[*length] = '\0'

/-- Byte length of the C string starting at the head of `l`:
`strlen` counts bytes up to (excluding) the first NUL. -/
def strlen : List Nat → Nat
  | [] => 0
  | b :: rest => if b = 0 then 0 else strlen rest + 1

/-- The string printed by `printf("%2d: %s\n", ...)` from position `i` of
the buffer: the bytes up to the first NUL at or after `i`. -/
def cString (buf : List Nat) (i : Nat) : List Nat :=
  (buf.drop i).takeWhile (fun b => b != 0)

/-- The string-printing loop of `DumpStringArray` (minidump_dump.cc:100-104),
with an explicit fuel bound on the number of iterations. State `i` is
`current_string - &buffer[0]`; the loop runs while `i < length`, prints the
C string at `i`, and advances by `strlen + 1`. `none` means the fuel was
exhausted before the loop exited. -/
def dumpStrings (buf : List Nat) (length : Nat) : Nat → Nat → Option (List (List Nat))
  | 0, i => if i < length then none else some []
  | fuel + 1, i =>
      if i < length then
        let s := cString buf i
        (dumpStrings buf length fuel (i + (s.length + 1))).map (fun rest => s :: rest)
      else
        some []

/-- Embedding of `DumpStringArray` (minidump_dump.cc:85-106): loads the stream, then runs
the printing loop. Result: the printed strings and the error count. -/
def DumpStringArray (s : StreamState) (e : Nat) : List (List Nat) × Nat :=
  match LoadStreamContents s e with
  | (none, e2) => ([], e2)
  | (some buf, e2) =>
      -- `length` is the stream length; the buffer holds `length + 1` bytes.
      ((dumpStrings buf (buf.length - 1) (buf.length - 1) 0).getD [], e2)

/-- Embedding of `DumpRawStream` (minidump_dump.cc:108-119): loads the stream and prints
it; only the error count matters to the driver. -/
def DumpRawStream (s : StreamState) (e : Nat) : Nat :=
  (LoadStreamContents s e).2

/-- Abstraction of the `Minidump` object as observed by
`PrintMinidumpDump`: whether `Read()` succeeds, whether each typed
accessor returns a non-null object, and the state of each Linux-extension
stream. -/
structure Minidump where
  readOk : Bool
  threadList : Bool
  moduleList : Bool
  memoryList : Bool
  hasException : Bool
  hasAssertion : Bool
  systemInfo : Bool
  miscInfo : Bool
  breakpadInfo : Bool
  cmdLine : StreamState
  environStream : StreamState
  lsbRelease : StreamState
  procStatus : StreamState
  cpuInfo : StreamState
deriving DecidableEq, Repr

/-- Embedding of `PrintMinidumpDump` (minidump_dump.cc:121-215). Mirrors the source's
control flow: `Read()` failure returns false at once; each of the thread,
module, memory, system-info and misc-info accessors increments `errors` on
failure; the exception, assertion and breakpad-info accessors only log at
INFO level; then the five Linux-extension streams are dumped, threading
`errors` through; finally `errors == 0` is returned. -/
def PrintMinidumpDump (m : Minidump) : Bool :=
  if !m.readOk then false
  else
    let errors := 0
    let errors := if !m.threadList then errors + 1 else errors
    let errors := if !m.moduleList then errors + 1 else errors
    let errors := if !m.memoryList then errors + 1 else errors
    -- GetException: BPLOG(INFO) only, no error increment
    -- GetAssertion: BPLOG(INFO) only, no error increment
    let errors := if !m.systemInfo then errors + 1 else errors
    let errors := if !m.miscInfo then errors + 1 else errors
    -- GetBreakpadInfo: "Breakpad info is optional, so don't treat this as an error."
    let errors := (DumpStringArray m.cmdLine errors).2
    let errors := (DumpStringArray m.environStream errors).2
    let errors := DumpRawStream m.lsbRelease errors
    let errors := DumpRawStream m.procStatus errors
    let errors := DumpRawStream m.cpuInfo errors
    errors == 0

/-- Exit code of `main` (minidump_dump.cc:219-228) once past the argument
check: `PrintMinidumpDump(argv[1]) ? 0 : 1`. -/
def minidumpDumpExit (m : Minidump) : Nat :=
  if PrintMinidumpDump m then 0 else 1

/-! ### Helper lemmas about the error count and the printing loop -/

/-- On every path, `LoadStreamContents` leaves the caller's error count
unchanged: the `ReadBytes`-failure path increments only the local copy of
the `int *errors` pointer. -/
theorem loadStreamContents_snd (s : StreamState) (e : Nat) :
    (LoadStreamContents s e).2 = e := by
  cases s with
  | absent => rfl
  | unreadable len => by_cases h : len = 0 <;> simp [LoadStreamContents, h]
  | readable bs => by_cases h : bs.length = 0 <;> simp [LoadStreamContents, h]

/-- The function `DumpStringArray` never changes the error count. -/
theorem dumpStringArray_snd (s : StreamState) (e : Nat) :
    (DumpStringArray s e).2 = e := by
  unfold DumpStringArray
  rcases h : LoadStreamContents s e with ⟨o, e2⟩
  have he2 : e2 = e := by
    have := loadStreamContents_snd s e
    rw [h] at this
    exact this
  cases o <;> simp [he2]

/-- The function `DumpRawStream` never changes the error count. -/
theorem dumpRawStream_eq (s : StreamState) (e : Nat) :
    DumpRawStream s e = e :=
  loadStreamContents_snd s e

/-- Characterization of `PrintMinidumpDump`: it returns true exactly when
`Read()` succeeded and the five error-counted accessors (thread list,
module list, memory list, system info, misc info) all succeeded. The
Linux-extension streams and the exception / assertion / breakpad-info
accessors never contribute to the error count. -/
theorem printMinidumpDump_eq (m : Minidump) :
    PrintMinidumpDump m =
      (m.readOk && m.threadList && m.moduleList && m.memoryList &&
        m.systemInfo && m.miscInfo) := by
  rcases m with ⟨ro, tl, ml, mem, he, ha, si, mi, bi, s1, s2, s3, s4, s5⟩
  simp only [PrintMinidumpDump, dumpStringArray_snd, dumpRawStream_eq]
  cases ro <;> cases tl <;> cases ml <;> cases mem <;> cases si <;> cases mi <;> rfl

/-! ### Claims C1-C3: exit-code behaviour of minidump_dump -/

/-- A minidump in which every error-counted accessor succeeds, but the
`MD_LINUX_CMD_LINE` stream is present with nonzero length (5) and reading
its bytes fails. -/
def minidumpUnreadableCmdLine : Minidump :=
  { readOk := true, threadList := true, moduleList := true, memoryList := true,
    hasException := false, hasAssertion := false, systemInfo := true,
    miscInfo := true, breakpadInfo := false,
    cmdLine := StreamState.unreadable 5,
    environStream := StreamState.absent, lsbRelease := StreamState.absent,
    procStatus := StreamState.absent, cpuInfo := StreamState.absent }

/-- Claim C1 (code_bug evidence): a Linux-extension stream
(`MD_LINUX_CMD_LINE`) is present with nonzero length and reading its bytes
fails, yet the tool exits 0: the source's `++errors` in `LoadStreamContents`
increments its local `int *errors` pointer instead of `*errors`, so the
failure is never recorded in the error count. -/
theorem cmdLineReadFailureExitsZero :
    minidumpUnreadableCmdLine.cmdLine = StreamState.unreadable 5 ∧
      minidumpDumpExit minidumpUnreadableCmdLine = 0 :=
  ⟨rfl, rfl⟩

/-- A minidump whose thread list is present but whose module list is
absent; everything else required is present. -/
def minidumpNoModuleList : Minidump :=
  { readOk := true, threadList := true, moduleList := false, memoryList := true,
    hasException := false, hasAssertion := false, systemInfo := true,
    miscInfo := true, breakpadInfo := false,
    cmdLine := StreamState.absent, environStream := StreamState.absent,
    lsbRelease := StreamState.absent, procStatus := StreamState.absent,
    cpuInfo := StreamState.absent }

/-- Claim C2 (counterexample): the thread list is present, yet
`PrintMinidumpDump` reports overall failure because the module list is
absent — refuting "overall failure when and only when the thread list is
absent" and "absence of the module list does not by itself cause an
overall failure". -/
theorem moduleListAbsenceFails :
    minidumpNoModuleList.threadList = true ∧
      PrintMinidumpDump minidumpNoModuleList = false :=
  ⟨rfl, rfl⟩

/-- Claim C2 (amended): `PrintMinidumpDump` reports overall success exactly
when `Read()` succeeds and the thread list, module list, memory list,
system-info stream and misc-info stream are all present; absence of any
one of these five causes overall failure, and nothing else does. -/
theorem printMinidumpDump_success_iff (m : Minidump) :
    PrintMinidumpDump m = true ↔
      (m.readOk = true ∧ m.threadList = true ∧ m.moduleList = true ∧
        m.memoryList = true ∧ m.systemInfo = true ∧ m.miscInfo = true) := by
  rw [printMinidumpDump_eq]
  simp [Bool.and_eq_true, and_assoc]

/-- A Linux-extension stream that `SeekToStreamType` misses entirely, or
that it reports with `*length == 0`. -/
def absentOrZero : StreamState → Prop
  | StreamState.absent => True
  | StreamState.unreadable len => len = 0
  | StreamState.readable bs => bs.length = 0

instance (s : StreamState) : Decidable (absentOrZero s) := by
  cases s <;> (unfold absentOrZero; infer_instance)

/-- Claim C3: when `Read()` succeeds and the five error-counted streams are
present, absence of the exception / assertion / breakpad-info streams (the
fields `hasException`, `hasAssertion`, `breakpadInfo` are unconstrained, so
in particular they may be false) and Linux-extension streams that are
absent or zero-length never increment the error count: the overall read
still succeeds (exit 0). -/
theorem absentOptionalStreamsStillSucceed (m : Minidump)
    (hr : m.readOk = true) (ht : m.threadList = true)
    (hml : m.moduleList = true) (hmem : m.memoryList = true)
    (hsi : m.systemInfo = true) (hmi : m.miscInfo = true)
    (h1 : absentOrZero m.cmdLine) (h2 : absentOrZero m.environStream)
    (h3 : absentOrZero m.lsbRelease) (h4 : absentOrZero m.procStatus)
    (h5 : absentOrZero m.cpuInfo) :
    PrintMinidumpDump m = true ∧ minidumpDumpExit m = 0 := by
  have h : PrintMinidumpDump m = true := by
    rw [printMinidumpDump_eq, hr, ht, hml, hmem, hsi, hmi]
    rfl
  exact ⟨h, by unfold minidumpDumpExit; rw [h]; rfl⟩

/-- A minidump whose required streams are present, whose optional typed
streams are absent, and whose Linux-extension streams are absent or
zero-length. -/
def minidumpOptionalAbsent : Minidump :=
  { readOk := true, threadList := true, moduleList := true, memoryList := true,
    hasException := false, hasAssertion := false, systemInfo := true,
    miscInfo := true, breakpadInfo := false,
    cmdLine := StreamState.absent,
    environStream := StreamState.readable [],
    lsbRelease := StreamState.unreadable 0,
    procStatus := StreamState.absent, cpuInfo := StreamState.absent }

/-- Witness for claim C3 at a concrete minidump with absent exception,
assertion and breakpad-info streams and absent / zero-length
Linux-extension streams. -/
theorem absentOptionalStreamsStillSucceed_witness :
    PrintMinidumpDump minidumpOptionalAbsent = true ∧
      minidumpDumpExit minidumpOptionalAbsent = 0 :=
  absentOptionalStreamsStillSucceed minidumpOptionalAbsent rfl rfl rfl rfl rfl rfl
    (by decide) (by decide) (by decide) (by decide) (by decide)

/-! ### Claim C4: bounds safety and termination of DumpStringArray -/

/-- The `strlen` of a list ending in a NUL byte never exceeds the length of the
part before the NUL: the terminator stops the scan. -/
theorem strlen_append_nul (ys : List Nat) : strlen (ys ++ [0]) ≤ ys.length := by
  induction ys with
  | nil => simp [strlen]
  | cons b rest ih =>
      by_cases hb : b = 0
      · simp [strlen, hb]
      · simpa [strlen, hb] using ih

/-- The length of the C string at the head of a buffer is its `strlen`. -/
theorem cString_length_eq_strlen (l : List Nat) :
    (l.takeWhile (fun b => b != 0)).length = strlen l := by
  induction l with
  | nil => rfl
  | cons b rest ih =>
      by_cases hb : b = 0
      · simp [List.takeWhile, strlen, hb]
      · have hbt : (b != 0) = true := by simpa using hb
        simp [List.takeWhile, strlen, hb, hbt, ih]

/-- In-bounds property of every `strlen` call of the loop: starting from
any offset `i ≤ L` in the `(L+1)`-byte buffer `bs ++ [0]`, the scanned
string ends at or before index `L` (where the appended NUL sits). -/
theorem cString_in_bounds (bs : List Nat) (i : Nat) (hi : i ≤ bs.length) :
    i + (cString (bs ++ [0]) i).length ≤ bs.length := by
  unfold cString
  rw [List.drop_append_of_le_length hi, cString_length_eq_strlen]
  have h1 : strlen (bs.drop i ++ [0]) ≤ (bs.drop i).length := strlen_append_nul _
  rw [List.length_drop] at h1
  omega

/-- Fuel sufficiency for the printing loop: from offset `i`, `L - i` units
of fuel (one per byte left before `length`) are enough for the loop to
exit, whatever the buffer contents. -/
theorem dumpStrings_terminates (buf : List Nat) (L : Nat) :
    ∀ fuel i, L ≤ i + fuel → ∃ out, dumpStrings buf L fuel i = some out := by
  intro fuel
  induction fuel with
  | zero =>
      intro i hle
      have : ¬ i < L := by omega
      exact ⟨[], by simp [dumpStrings, this]⟩
  | succ fuel ih =>
      intro i hle
      by_cases hi : i < L
      · have hstep : L ≤ (i + ((cString buf i).length + 1)) + fuel := by omega
        obtain ⟨out, hout⟩ := ih (i + ((cString buf i).length + 1)) hstep
        exact ⟨cString buf i :: out, by simp [dumpStrings, hi, hout]⟩
      · exact ⟨[], by simp [dumpStrings, hi]⟩

/-- Claim C4: for any stream bytes `bs` of length `L` loaded into the
`(L+1)`-byte buffer `bs ++ [0]` whose last byte is the NUL appended by
`LoadStreamContents`, (1) the string-printing loop of `DumpStringArray`
terminates within `L` iterations regardless of the (possibly adversarial)
bytes, and (2) every string scanned from any reachable offset `i ≤ L` lies
within indices `0 .. L` of the buffer, so no `strlen` or print reads past
the buffer. -/
theorem dumpStringArray_safe (bs : List Nat) :
    (∃ out, dumpStrings (bs ++ [0]) bs.length bs.length 0 = some out) ∧
      (∀ i, i ≤ bs.length →
        i + (cString (bs ++ [0]) i).length ≤ bs.length) := by
  constructor
  · exact dumpStrings_terminates (bs ++ [0]) bs.length bs.length 0 (by omega)
  · intro i hi
    exact cString_in_bounds bs i hi

/-! ### LinuxCoreDumper (core-file mode)

The implementation files src/client/linux/minidump_writer/linux_core_dumper.cc
and src/client/linux/minidump_writer/linux_dumper.cc are not among the
sources; only their unit test
(src/client/linux/minidump_writer/linux_core_dumper_unittest.cc) is. The
definitions below are therefore modelled from the specification (sections
4.1, 4.2, 7 and 8) and from the behaviour the unit test requires. -/

/-- Linux signal number of SIGABRT. -/
def SIGABRT : Nat := 6

/-- Linux signal number of SIGSYS. -/
def SIGSYS : Nat := 31

/-- Modelled from the spec: the signals for which the Linux kernel supplies
a fault address (`si_addr`) in the siginfo attached to the crash — SIGILL,
SIGBUS, SIGFPE, SIGSEGV, SIGTRAP and SIGSYS. "Linux does not set the crash
address with SIGABRT" (linux_core_dumper_unittest.cc:111-112). -/
def sigHasAddress (sig : Nat) : Bool :=
  sig == 4 || sig == 5 || sig == 7 || sig == 8 || sig == 11 || sig == 31

/-- Modelled from the spec: the crash-relevant content of a kernel-written
core file as the (missing) LinuxCoreDumper implementation parses it from
the note segment — the thread ids, the crash thread, the fault's signal
number, the fault address and the machine-specific extra siginfo fields
attached as opaque data (spec section 4.2). -/
structure CrashContext where
  threadIds : List Nat
  crashTid : Nat
  signal : Nat
  faultAddr : Nat
  siginfoExtra : List Nat
deriving DecidableEq, Repr

/-- Modelled from the spec: the core file the kernel writes when thread
`crashTid` of a process with threads `tids` raises signal `sig`. The fault
address is recorded only for signals that carry one (zero otherwise, never
a stale value), and for SIGSYS the kernel supplies the two extended
siginfo fields (syscall number and architecture tag). -/
def coreFromCrash (tids : List Nat) (crashTid sig addr sysNum archTag : Nat) :
    CrashContext :=
  { threadIds := tids
    crashTid := crashTid
    signal := sig
    faultAddr := if sigHasAddress sig then addr else 0
    siginfoExtra := if sig == SIGSYS then [sysNum, archTag] else [] }

/-- Modelled from the spec: a LinuxCoreDumper constructed over a core file
(constructor `LinuxCoreDumper(pid, core_path, procfs_path, root_prefix)`),
holding the parsed core content. -/
structure LinuxCoreDumper where
  pid : Nat
  corePath : String
  procfsPath : String
  mappedRoot : String
  core : CrashContext
  initialized : Bool
deriving DecidableEq, Repr

/-- Modelled from the spec: `Init()` parses the already-frozen core file
and records the crash information; it succeeds on a well-formed core. -/
def LinuxCoreDumper.Init (d : LinuxCoreDumper) : Bool × LinuxCoreDumper :=
  (true, { d with initialized := true })

/-- Modelled from the spec: core-file analysis is post-mortem
(spec glossary: analysis from a frozen memory image). -/
def LinuxCoreDumper.IsPostMortem (_ : LinuxCoreDumper) : Bool :=
  true

/-- Modelled from the spec: "core-file mode requires no suspension since
memory is already frozen" (spec section 4.1) — suspension is a no-op that
reports success and leaves the dumper unchanged. -/
def LinuxCoreDumper.ThreadsSuspend (d : LinuxCoreDumper) : Bool × LinuxCoreDumper :=
  (true, d)

/-- Modelled from the spec: resuming is likewise a no-op returning true. -/
def LinuxCoreDumper.ThreadsResume (d : LinuxCoreDumper) : Bool × LinuxCoreDumper :=
  (true, d)

/-- Modelled from the spec: the captured fault signal number. -/
def LinuxCoreDumper.crash_signal (d : LinuxCoreDumper) : Nat :=
  d.core.signal

/-- Modelled from the spec: the id of the thread that raised the fault. -/
def LinuxCoreDumper.crash_thread (d : LinuxCoreDumper) : Nat :=
  d.core.crashTid

/-- Modelled from the spec: the captured fault address. -/
def LinuxCoreDumper.crash_address (d : LinuxCoreDumper) : Nat :=
  d.core.faultAddr

/-- Modelled from the spec: the machine-specific auxiliary fault info
(extra siginfo fields) attached to the report as opaque data. -/
def LinuxCoreDumper.crash_exception_info (d : LinuxCoreDumper) : List Nat :=
  d.core.siginfoExtra

/-- Modelled from the spec: the enumerated threads of the target. -/
def LinuxCoreDumper.threads (d : LinuxCoreDumper) : List Nat :=
  d.core.threadIds

/-- Modelled from the spec: a memory mapping record as the dumper sees it —
`{start address, size, system-mapping bounds, file offset, permissions,
backing file path}` (spec section 3, "Memory mapping"). -/
structure MappingInfo where
  startAddr : Nat
  size : Nat
  sysStart : Nat
  sysEnd : Nat
  offset : Nat
  exec : Bool
  name : String
deriving DecidableEq, Repr

/-- Modelled from the spec: `GetMappingAbsolutePath` of the (missing)
linux_dumper.cc resolves a mapping's backing file path against the
dumper's mapped-root directory by prepending the root to the path
(behaviour fixed by linux_core_dumper_unittest.cc:41-49). -/
def LinuxCoreDumper.GetMappingAbsolutePath (d : LinuxCoreDumper)
    (mapping : MappingInfo) : String :=
  d.mappedRoot ++ mapping.name

/-- Maximum file-name length limit used by `BuildProcPath`. -/
def NAME_MAX : Nat := 255

/-- Modelled from the spec: `BuildProcPath(path, pid, node)` of the
(missing) linux_core_dumper.cc builds the string `<procfs_path>/<node>`
into the caller's buffer (behaviour fixed by
linux_core_dumper_unittest.cc:51-72). A NULL output pointer is modelled by
the flag `pathIsNull` and a NULL node by `none`; the result is `none`
exactly when the source returns false without writing, and `some s` when
it returns true having written `s`. The write is refused when the combined
string would reach `NAME_MAX`. -/
def LinuxCoreDumper.BuildProcPath (d : LinuxCoreDumper) (pathIsNull : Bool)
    (pid : Nat) (node : Option String) : Option String :=
  if pathIsNull then none
  else
    match node with
    | none => none
    | some n =>
        if n.length = 0 then none
        else if NAME_MAX ≤ d.procfsPath.length + 1 + n.length then none
        else some (d.procfsPath ++ "/" ++ n)

/-- A string has length zero exactly when it is the empty string. -/
theorem string_length_zero_iff (s : String) : s.length = 0 ↔ s = "" := by
  constructor
  · intro h
    apply String.ext
    have hd : s.data = [] := List.eq_nil_of_length_eq_zero h
    rw [hd]
  · intro h
    rw [h]
    decide

/-! ### Claims C5-C10: LinuxCoreDumper behaviour -/

/-- Claim C5: for a core file produced by a process with `N` live threads
in which thread `tid` crashed via signal `sig`, an initialized
LinuxCoreDumper reports `crash_signal` equal to `sig`, `crash_thread`
equal to `tid`, and at least `N` threads. -/
theorem coreDumper_crash_report (d : LinuxCoreDumper) (tids : List Nat)
    (tid sig addr sysNum archTag N : Nat)
    (hcore : d.core = coreFromCrash tids tid sig addr sysNum archTag)
    (hN : N ≤ tids.length) :
    (d.Init).2.crash_signal = sig ∧ (d.Init).2.crash_thread = tid ∧
      N ≤ (d.Init).2.threads.length := by
  refine ⟨?_, ?_, ?_⟩ <;>
    simp [LinuxCoreDumper.Init, LinuxCoreDumper.crash_signal,
      LinuxCoreDumper.crash_thread, LinuxCoreDumper.threads, hcore,
      coreFromCrash, hN]

/-- A dumper over the core of a 3-thread process whose thread 1002
crashed via SIGABRT. -/
def dumperThreeThreads : LinuxCoreDumper :=
  { pid := 123, corePath := "core", procfsPath := "/tmp/proc",
    mappedRoot := "",
    core := coreFromCrash [1001, 1002, 1003] 1002 SIGABRT 0 0 0,
    initialized := false }

/-- Witness for claim C5 at a concrete 3-thread SIGABRT crash. -/
theorem coreDumper_crash_report_witness :
    (dumperThreeThreads.Init).2.crash_signal = SIGABRT ∧
      (dumperThreeThreads.Init).2.crash_thread = 1002 ∧
      3 ≤ (dumperThreeThreads.Init).2.threads.length :=
  coreDumper_crash_report dumperThreeThreads [1001, 1002, 1003] 1002 SIGABRT
    0 0 0 3 rfl (by decide)

/-- Claim C6: for every LinuxCoreDumper, `IsPostMortem()` returns true and
`ThreadsSuspend()` / `ThreadsResume()` are no-ops (the dumper is
unchanged) that always return true: a core file's memory is already
frozen. -/
theorem coreDumper_postmortem_noops (d : LinuxCoreDumper) :
    d.IsPostMortem = true ∧ d.ThreadsSuspend = (true, d) ∧
      d.ThreadsResume = (true, d) :=
  ⟨rfl, rfl, rfl⟩

/-- Claim C7: when the crash signal is SIGSYS delivered with extended
siginfo fields (a nonzero call-site address and the syscall / architecture
pair), the dumper reports a nonzero `crash_address` and exactly 2 entries
of `crash_exception_info`. -/
theorem coreDumper_sigsys_exception_details (d : LinuxCoreDumper)
    (tids : List Nat) (tid addr sysNum archTag : Nat)
    (hcore : d.core = coreFromCrash tids tid SIGSYS addr sysNum archTag)
    (haddr : addr ≠ 0) :
    (d.Init).2.crash_address ≠ 0 ∧
      (d.Init).2.crash_exception_info.length = 2 := by
  constructor
  · simpa [LinuxCoreDumper.Init, LinuxCoreDumper.crash_address, hcore,
      coreFromCrash, sigHasAddress, SIGSYS] using haddr
  · simp [LinuxCoreDumper.Init, LinuxCoreDumper.crash_exception_info, hcore,
      coreFromCrash, SIGSYS]

/-- A dumper over the core of a 2-thread process whose thread 2002
crashed via SIGSYS at call-site address 4096, syscall 59, arch tag 1. -/
def dumperSigsys : LinuxCoreDumper :=
  { pid := 124, corePath := "core", procfsPath := "/tmp/proc",
    mappedRoot := "",
    core := coreFromCrash [2001, 2002] 2002 SIGSYS 4096 59 1,
    initialized := false }

/-- Witness for claim C7 at a concrete SIGSYS crash. -/
theorem coreDumper_sigsys_exception_details_witness :
    (dumperSigsys.Init).2.crash_address ≠ 0 ∧
      (dumperSigsys.Init).2.crash_exception_info.length = 2 :=
  coreDumper_sigsys_exception_details dumperSigsys [2001, 2002] 2002 4096
    59 1 rfl (by decide)

/-- Claim C8: for a SIGABRT crash — a signal for which Linux supplies no
fault address — the dumper reports `crash_address = 0` regardless of any
address value `addr` floating around, while still reporting the correct
crash signal and crash thread. -/
theorem coreDumper_sigabrt_zero_address (d : LinuxCoreDumper)
    (tids : List Nat) (tid addr sysNum archTag : Nat)
    (hcore : d.core = coreFromCrash tids tid SIGABRT addr sysNum archTag) :
    (d.Init).2.crash_address = 0 ∧ (d.Init).2.crash_signal = SIGABRT ∧
      (d.Init).2.crash_thread = tid := by
  refine ⟨?_, ?_, ?_⟩ <;>
    simp [LinuxCoreDumper.Init, LinuxCoreDumper.crash_address,
      LinuxCoreDumper.crash_signal, LinuxCoreDumper.crash_thread, hcore,
      coreFromCrash, sigHasAddress, SIGABRT]

/-- A dumper over the core of a SIGABRT crash where a stale nonzero
address value (999) was around when the core was written. -/
def dumperSigabrt : LinuxCoreDumper :=
  { pid := 125, corePath := "core", procfsPath := "/tmp/proc",
    mappedRoot := "",
    core := coreFromCrash [3001, 3002, 3003] 3002 SIGABRT 999 0 0,
    initialized := false }

/-- Witness for claim C8: even with the stale address 999 present at
crash time, the reported crash address is 0. -/
theorem coreDumper_sigabrt_zero_address_witness :
    (dumperSigabrt.Init).2.crash_address = 0 ∧
      (dumperSigabrt.Init).2.crash_signal = SIGABRT ∧
      (dumperSigabrt.Init).2.crash_thread = 3002 :=
  coreDumper_sigabrt_zero_address dumperSigabrt [3001, 3002, 3003] 3002 999
    0 0 rfl

/-- The dumper of linux_core_dumper_unittest.cc:42, with mapped root
"/mnt/root". -/
def dumperMappedRoot : LinuxCoreDumper :=
  { pid := 126, corePath := "core", procfsPath := "/tmp",
    mappedRoot := "/mnt/root",
    core := coreFromCrash [] 0 0 0 0 0, initialized := false }

/-- The mapping of linux_core_dumper_unittest.cc:43, backed by
"/usr/lib/libc.so". -/
def mappingLibc : MappingInfo :=
  { startAddr := 0, size := 0, sysStart := 0, sysEnd := 0, offset := 0,
    exec := false, name := "/usr/lib/libc.so" }

/-- Claim C9: `GetMappingAbsolutePath` writes the concatenation of the
dumper's mapped-root R and the mapping's backing path P, and in
particular root "/mnt/root" with path "/usr/lib/libc.so" yields
"/mnt/root/usr/lib/libc.so". -/
theorem getMappingAbsolutePath_concat :
    (∀ (d : LinuxCoreDumper) (mapping : MappingInfo),
        d.GetMappingAbsolutePath mapping = d.mappedRoot ++ mapping.name) ∧
      dumperMappedRoot.GetMappingAbsolutePath mappingLibc =
        "/mnt/root/usr/lib/libc.so" :=
  ⟨fun _ _ => rfl, rfl⟩

/-- Claim C10: `BuildProcPath` refuses (returning false, writing nothing)
exactly when the output buffer is NULL, the node is NULL or empty, or the
combined path would reach `NAME_MAX`; otherwise it succeeds and writes
exactly `<procfs_path>/<node>`. -/
theorem buildProcPath_spec (d : LinuxCoreDumper) (pathIsNull : Bool)
    (pid : Nat) (node : Option String) :
    (d.BuildProcPath pathIsNull pid node = none ↔
      pathIsNull = true ∨ node = none ∨ node = some "" ∨
        ∃ n, node = some n ∧
          NAME_MAX ≤ d.procfsPath.length + 1 + n.length) ∧
    (∀ n, node = some n → pathIsNull = false → n ≠ "" →
        d.procfsPath.length + 1 + n.length < NAME_MAX →
        d.BuildProcPath pathIsNull pid node =
          some (d.procfsPath ++ "/" ++ n)) := by
  constructor
  · cases pathIsNull with
    | true => simp [LinuxCoreDumper.BuildProcPath]
    | false =>
        cases node with
        | none => simp [LinuxCoreDumper.BuildProcPath]
        | some n =>
            by_cases hz : n.length = 0
            · have hn : n = "" := (string_length_zero_iff n).mp hz
              simp [LinuxCoreDumper.BuildProcPath, hz, hn]
            · by_cases hmax : NAME_MAX ≤ d.procfsPath.length + 1 + n.length
              · have hn : n ≠ "" := fun h =>
                  hz ((string_length_zero_iff n).mpr h)
                simp [LinuxCoreDumper.BuildProcPath, hz, hmax, hn]
              · have hn : ¬ n = "" := fun h =>
                  hz ((string_length_zero_iff n).mpr h)
                simp [LinuxCoreDumper.BuildProcPath, hz, hmax, hn]
  · intro n hnode hp hne hlt
    subst hnode
    subst hp
    have hz : ¬ n.length = 0 := fun h => hne ((string_length_zero_iff n).mp h)
    have hmax : ¬ NAME_MAX ≤ d.procfsPath.length + 1 + n.length := by omega
    simp [LinuxCoreDumper.BuildProcPath, hz, hmax]

/-- The dumper of linux_core_dumper_unittest.cc:54, with procfs path
"/procfs_copy". -/
def dumperProcfsCopy : LinuxCoreDumper :=
  { pid := 127, corePath := "core_file", procfsPath := "/procfs_copy",
    mappedRoot := "",
    core := coreFromCrash [] 0 0 0 0 0, initialized := false }

/-- Witness for claim C10: building the "maps" node path under
"/procfs_copy" succeeds and writes "/procfs_copy/maps". -/
theorem buildProcPath_spec_witness :
    dumperProcfsCopy.BuildProcPath false 42 (some "maps") =
      some "/procfs_copy/maps" :=
  (buildProcPath_spec dumperProcfsCopy false 42 (some "maps")).2 "maps" rfl
    rfl (by decide) (by decide)
